import Mathlib

/-!
Shallow embedding of the behavioral bot-detection module (the BotDetector
class of the frontend's botDetection source file) and proofs of the spec's
claims about it.

Modelling conventions:
- JavaScript numbers are modelled as exact rationals.  The single numeric
  invalidity that is reachable in this module is a 0/0 division (yielding
  NaN in JavaScript); it is modelled by an Option-valued division helper
  whose result propagates through the later arithmetic exactly as NaN does
  (every subsequent operation applied to it - addition, multiplication,
  Math.min with a constant, subtraction from a constant - maps NaN to NaN).
- Math.sqrt is kept as an explicit function parameter (called sq below) of
  every definition that uses it, so all theorems hold for every choice of
  square-root function; concrete witnesses instantiate it with ratSqrt,
  a computable stand-in that agrees with the true square root on the
  perfect squares appearing in those witnesses.
- The DOM lookup document.elementFromPoint is modelled as a function
  parameter dom from coordinates to an optional rectangle.
- reportToServer posts a snapshot whose essential payload is the current
  confidence score; reports are modelled as the list of scores sent.
-/

namespace BotShop

/-- Geometry of a DOM element as returned by getBoundingClientRect. -/
structure Rect where
  left : ℚ
  top : ℚ
  width : ℚ
  height : ℚ
deriving DecidableEq

/-- Pointer sample recorded by handleMouseMove: position and monotonic time. -/
structure MousePt where
  x : ℚ
  y : ℚ
  time : ℚ
deriving DecidableEq

/-- Key sample recorded by handleKeyDown: time and modifier flags (the key
identity is deliberately not recorded by the source). -/
structure KeyPt where
  time : ℚ
  shift : Bool
  ctrl : Bool
  alt : Bool
  meta : Bool
deriving DecidableEq

/-- Click sample recorded by handleClick. -/
structure ClickPt where
  x : ℚ
  y : ℚ
  target : String
  time : ℚ
deriving DecidableEq

/-- Scroll sample recorded by handleScroll. -/
structure ScrollPt where
  scrollY : ℚ
  time : ℚ
deriving DecidableEq

/-- Form sample recorded by handleFormInteraction. -/
structure FormPt where
  field : String
  time : ℚ
deriving DecidableEq

namespace CONFIG

def MOUSE_THROTTLE_MS : ℚ := 50
def KEYBOARD_THROTTLE_MS : ℚ := 25
def MAX_SAMPLES : ℕ := 200
def ANALYSIS_INTERVAL_MS : ℚ := 500
def MIN_MOUSE_MOVEMENTS : ℕ := 2
def MIN_KEYPRESS_SAMPLES : ℕ := 1
def MOUSE_ENTROPY : ℚ := 0.45
def TYPING_PATTERN : ℚ := 0.15
def NAVIGATION_PATTERN : ℚ := 0.25
def FORM_FILLING : ℚ := 0.15
def BOT_THRESHOLD : ℚ := 0.55
def HUMAN_THRESHOLD : ℚ := 0.3

end CONFIG

/-- JavaScript division where the only reachable zero-denominator case in this
module has a zero numerator: 0/0 is NaN, modelled as none. -/
def jsDiv (a b : ℚ) : Option ℚ :=
  if b = 0 then none else some (a / b)

/-- Computable stand-in for Math.sqrt used only to instantiate the sq
parameter in concrete witnesses; it agrees with the true square root on the
perfect squares (and comparison outcomes) appearing in them. -/
def ratSqrt (q : ℚ) : ℚ :=
  if q ≤ 0 then 0 else (Nat.sqrt q.num.toNat : ℚ) / (Nat.sqrt q.den : ℚ)

/-- Consecutive triples of a list, in order: the loop for i from 2 reading
indices i-2, i-1, i. -/
def triples {α : Type} : List α → List (α × α × α)
  | a :: rest@(b :: c :: _) => (a, b, c) :: triples rest
  | _ => []

/-- Adjacent differences of a list, in order: the loop pushing l[i] - l[i-1]. -/
def adjDiffs : List ℚ → List ℚ
  | a :: rest@(b :: _) => (b - a) :: adjDiffs rest
  | _ => []

/-- Sum of absolute differences of consecutive elements: the accumulation of
speedDiff = Math.abs(speed - lastSpeed) across the loop. -/
def adjAbsDiffs : List ℚ → ℚ
  | a :: rest@(b :: _) => |b - a| + adjAbsDiffs rest
  | _ => 0

/-- Append a sample and drop the oldest when the capacity is exceeded:
the push followed by the conditional shift in every handler. -/
def pushTrim {α : Type} (l : List α) (a : α) (cap : ℕ) : List α :=
  let l' := l ++ [a]
  if cap < l'.length then l'.drop 1 else l'

/-- String url.startsWith modelled on the character list. -/
def jsStartsWith (s pre : String) : Bool :=
  pre.data.isPrefixOf s.data

/-- String url.includes modelled on the character list. -/
def jsIncludes (s sub : String) : Bool :=
  (List.range (s.data.length + 1)).any fun i => sub.data.isPrefixOf (s.data.drop i)

/-- First component of url.split on the question mark. -/
def splitQuery (s : String) : String :=
  String.mk (s.data.takeWhile fun c => c ≠ '?')

/-- Lower-casing of the declared identity string. -/
def lowerStr (s : String) : String :=
  String.mk (s.data.map Char.toLower)

/-- Magnitude of the 2D cross product of the two segment vectors of a triple
of pointer samples. -/
def crossOf (p1 p2 p3 : MousePt) : ℚ :=
  |(p2.x - p1.x) * (p3.y - p2.y) - (p2.y - p1.y) * (p3.x - p2.x)|

/-- Instantaneous speed of the second segment of a pointer triple: distance
over elapsed time, zero when no time elapsed. -/
def speedOf (sq : ℚ → ℚ) (p2 p3 : MousePt) : ℚ :=
  let dxB := p3.x - p2.x
  let dyB := p3.y - p2.y
  let distance := sq (dxB * dxB + dyB * dyB)
  let timeDiff := p3.time - p2.time
  if 0 < timeDiff then distance / timeDiff else 0

/-- Mouse movement entropy extractor (calculateMouseEntropy).  Returns none
exactly when the JavaScript computation returns NaN, which happens at
exactly two samples where speedVariations and length minus two are both 0. -/
def calculateMouseEntropy (sq : ℚ → ℚ) (mouseMovements : List MousePt) : Option ℚ :=
  if mouseMovements.length < CONFIG.MIN_MOUSE_MOVEMENTS then
    some 0.5
  else
    let trip := triples mouseMovements
    let straightLineSegments : ℕ := trip.countP fun t => decide (crossOf t.1 t.2.1 t.2.2 < 10)
    let speeds := trip.map fun t => speedOf sq t.2.1 t.2.2
    let speedVariations := adjAbsDiffs speeds
    let straightnessRatio : ℚ :=
      if 3 < mouseMovements.length then
        (straightLineSegments : ℚ) / ((mouseMovements.length : ℚ) - 2)
      else 0
    (jsDiv speedVariations ((mouseMovements.length : ℚ) - 2)).map fun speedVariabilityScore =>
      straightnessRatio * 0.6 + (1 - min 1 (speedVariabilityScore * 10)) * 0.4

/-- Typing pattern extractor (calculateTypingPatterns).  Returns none exactly
when the JavaScript computation returns NaN, which happens at exactly one
sample where the interval list is empty and the mean is 0/0. -/
def calculateTypingPatterns (keyPressTimings : List KeyPt) : Option ℚ :=
  if keyPressTimings.length < CONFIG.MIN_KEYPRESS_SAMPLES then
    some 0.5
  else
    let intervals := adjDiffs (keyPressTimings.map (·.time))
    let sum := intervals.sum
    let squaredSum := (intervals.map fun i => i * i).sum
    do
      let mean ← jsDiv sum (intervals.length : ℚ)
      let meanSquares ← jsDiv squaredSum (intervals.length : ℚ)
      let variance := meanSquares - mean * mean
      pure (1 - min 1 (variance / 10000))

/-- Statistical variance helper (calculateVariance). -/
def calculateVariance (array : List ℚ) : ℚ :=
  if array.length = 0 then 0
  else
    let mean := array.sum / (array.length : ℚ)
    (array.map fun n => (n - mean) ^ 2).sum / (array.length : ℚ)

/-- Scroll-interval regularity sub-signal of the navigation extractor:
one minus the standard deviation of scroll intervals normalized by 1000,
clamped to the unit interval. -/
def scrollRegularity (sq : ℚ → ℚ) (scrollEvents : List ScrollPt) : ℚ :=
  let scrollIntervals := adjDiffs (scrollEvents.map (·.time))
  let avg := scrollIntervals.sum / (scrollIntervals.length : ℚ)
  let variance := (scrollIntervals.map fun val => (val - avg) ^ 2).sum / (scrollIntervals.length : ℚ)
  let stdDev := sq variance
  max 0 (min 1 (1 - stdDev / 1000))

/-- Whether a recorded click lands within 5 pixels of the geometric center of
the element currently at its position (document.elementFromPoint). -/
def isCenterClick (sq : ℚ → ℚ) (dom : ℚ → ℚ → Option Rect) (click : ClickPt) : Bool :=
  match dom click.x click.y with
  | none => false
  | some rect =>
    let centerX := rect.left + rect.width / 2
    let centerY := rect.top + rect.height / 2
    let distanceToCenter := sq ((click.x - centerX) ^ 2 + (click.y - centerY) ^ 2)
    decide (distanceToCenter < 5)

/-- Fraction of recorded clicks that are center clicks. -/
def centerClickRatio (sq : ℚ → ℚ) (dom : ℚ → ℚ → Option Rect) (clickEvents : List ClickPt) : ℚ :=
  ((clickEvents.countP (isCenterClick sq dom) : ℕ) : ℚ) / ((clickEvents.length : ℕ) : ℚ)

/-- Navigation pattern extractor (calculateNavigationPatterns). -/
def calculateNavigationPatterns (sq : ℚ → ℚ) (dom : ℚ → ℚ → Option Rect)
    (clickEvents : List ClickPt) (scrollEvents : List ScrollPt) : ℚ :=
  if clickEvents.length < 2 ∧ scrollEvents.length < 2 then 0.5
  else
    let score : ℚ := 0.5
    let score := if 3 ≤ scrollEvents.length then (score + scrollRegularity sq scrollEvents) / 2 else score
    let score := if 2 ≤ clickEvents.length then (score + centerClickRatio sq dom clickEvents) / 2 else score
    score

/-- Form filling pattern extractor (calculateFormFillingPatterns). -/
def calculateFormFillingPatterns (formInteractions : List FormPt) : ℚ :=
  if formInteractions.length < 2 then 0.5
  else
    let intervals := adjDiffs (formInteractions.map (·.time))
    let avgInterval := intervals.sum / (intervals.length : ℚ)
    if avgInterval < 250 then 0.95
    else if avgInterval < 500 then 0.8
    else if avgInterval < 800 then 0.6
    else if avgInterval < 1500 then 0.4
    else 0.2

/-- State of one BotDetector instance.  The listening flag models whether the
document event listeners are attached (start attaches, stop detaches); the
timerArmed flag models the pending scheduled-analysis handle; reports is the
list of confidence scores shipped by reportToServer, in order. -/
structure BotDetector where
  mouseMovements : List MousePt
  keyPressTimings : List KeyPt
  clickEvents : List ClickPt
  scrollEvents : List ScrollPt
  formInteractions : List FormPt
  lastMouseTime : ℚ
  lastKeyTime : ℚ
  confidenceScore : ℚ
  isAnalyzing : Bool
  botEndpointHits : List (String × ℕ)
  listening : Bool
  timerArmed : Bool
  reports : List ℚ

/-- State right after the constructor runs (before start): empty buffers,
neutral score, no listeners, no timer, no reports, empty endpoint map. -/
def initState : BotDetector :=
  { mouseMovements := []
    keyPressTimings := []
    clickEvents := []
    scrollEvents := []
    formInteractions := []
    lastMouseTime := 0
    lastKeyTime := 0
    confidenceScore := 0.5
    isAnalyzing := false
    botEndpointHits := []
    listening := false
    timerArmed := false
    reports := [] }

/-- Additive score bump clamped at the 0.95 ceiling: the idiom
confidenceScore += c; confidenceScore = Math.min(0.95, confidenceScore). -/
def bumpScore (c : ℚ) (st : BotDetector) : BotDetector :=
  { st with confidenceScore := min 0.95 (st.confidenceScore + c) }

/-- Emission of one report snapshot (reportToServer): the current confidence
score is appended to the list of sent reports.  The network outcome never
affects the state. -/
def report (st : BotDetector) : BotDetector :=
  { st with reports := st.reports ++ [st.confidenceScore] }

/-- Collinearity-plus-regular-timing test on the last three pointer samples
(isTooPerfectLine): cross product below 10 and interval difference below 10. -/
def isTooPerfectLine : List MousePt → Bool
  | p1 :: p2 :: p3 :: _ =>
    decide (crossOf p1 p2 p3 < 10) &&
      decide (|(p2.time - p1.time) - (p3.time - p2.time)| < 10)
  | _ => false

/-- Last three elements of a list, the slice with argument negative three. -/
def lastThree {α : Type} (l : List α) : List α :=
  l.drop (l.length - 3)

/-- Throttled pointer handler (handleMouseMove): record, trim, then the
opportunistic straight-line bump on the last three samples. -/
def handleMouseMove (now x y : ℚ) (st : BotDetector) : BotDetector :=
  if CONFIG.MOUSE_THROTTLE_MS ≤ now - st.lastMouseTime then
    let buf := pushTrim st.mouseMovements ⟨x, y, now⟩ CONFIG.MAX_SAMPLES
    let st := { st with lastMouseTime := now, mouseMovements := buf }
    if 3 ≤ buf.length ∧ isTooPerfectLine (lastThree buf) then bumpScore 0.1 st else st
  else st

/-- Mechanical-typing test (detectMechanicalTyping): variance of the first up
to four inter-key intervals below 500 triggers a 0.05 bump. -/
def detectMechanicalTyping (st : BotDetector) : BotDetector :=
  if st.keyPressTimings.length < 3 then st
  else
    let intervals := adjDiffs ((st.keyPressTimings.take 5).map (·.time))
    let avg := intervals.sum / (intervals.length : ℚ)
    let variance := (intervals.map fun val => (val - avg) ^ 2).sum / (intervals.length : ℚ)
    if variance < 500 then bumpScore 0.05 st else st

/-- Throttled key handler (handleKeyDown). -/
def handleKeyDown (now : ℚ) (shift ctrl alt meta : Bool) (st : BotDetector) : BotDetector :=
  if CONFIG.KEYBOARD_THROTTLE_MS ≤ now - st.lastKeyTime then
    let buf := pushTrim st.keyPressTimings ⟨now, shift, ctrl, alt, meta⟩ CONFIG.MAX_SAMPLES
    let st := { st with lastKeyTime := now, keyPressTimings := buf }
    if 3 ≤ buf.length then detectMechanicalTyping st else st
  else st

/-- Click handler (handleClick): record, trim (quarter capacity), then the
perfect-center-click bump with an immediate report.  The rect argument is the
bounding rectangle of the event target, none when the target is not an
HTMLElement. -/
def handleClick (sq : ℚ → ℚ) (now x y : ℚ) (tag : String) (rect : Option Rect)
    (st : BotDetector) : BotDetector :=
  let buf := pushTrim st.clickEvents ⟨x, y, tag, now⟩ (CONFIG.MAX_SAMPLES / 4)
  let st := { st with clickEvents := buf }
  match rect with
  | none => st
  | some r =>
    let centerX := r.left + r.width / 2
    let centerY := r.top + r.height / 2
    let distanceToCenter := sq ((x - centerX) ^ 2 + (y - centerY) ^ 2)
    if distanceToCenter < 5 ∧ 10 < r.width ∧ 10 < r.height then
      report (bumpScore 0.15 st)
    else st

/-- Mechanical-scrolling test (detectMechanicalScrolling): time and distance
variances of the first up to three scroll steps both below 100 trigger a
0.1 bump. -/
def detectMechanicalScrolling (st : BotDetector) : BotDetector :=
  if st.scrollEvents.length < 3 then st
  else
    let window := st.scrollEvents.take 4
    let intervals := adjDiffs (window.map (·.time))
    let distances := (adjDiffs (window.map (·.scrollY))).map fun d => |d|
    if calculateVariance intervals < 100 ∧ calculateVariance distances < 100 then
      bumpScore 0.1 st
    else st

/-- Scroll handler (handleScroll). -/
def handleScroll (now scrollY : ℚ) (st : BotDetector) : BotDetector :=
  let buf := pushTrim st.scrollEvents ⟨scrollY, now⟩ (CONFIG.MAX_SAMPLES / 4)
  let st := { st with scrollEvents := buf }
  if 3 ≤ buf.length then detectMechanicalScrolling st else st

/-- Gap between the two most recent form interactions. -/
def lastGap (l : List FormPt) : Option ℚ :=
  match l.reverse with
  | a :: b :: _ => some (a.time - b.time)
  | _ => none

/-- Form input handler (handleFormInteraction): only INPUT, SELECT and
TEXTAREA targets are recorded; an inter-field gap under 500ms triggers a 0.2
bump and an immediate report. -/
def handleFormInteraction (now : ℚ) (tag field : String) (st : BotDetector) : BotDetector :=
  if tag = "INPUT" ∨ tag = "SELECT" ∨ tag = "TEXTAREA" then
    let buf := pushTrim st.formInteractions ⟨field, now⟩ (CONFIG.MAX_SAMPLES / 4)
    let st := { st with formInteractions := buf }
    if 2 ≤ buf.length then
      match lastGap buf with
      | some timeBetweenFields =>
        if timeBetweenFields < 500 then report (bumpScore 0.2 st) else st
      | none => st
    else st
  else st

/-- Identity substrings that mark the declared identity string as automated. -/
def botUASubstrs : List String :=
  ["bot", "crawler", "spider", "headless", "automation", "playwright", "selenium", "cypress"]

/-- Resolution of the header-probe side channel (the then-callback of
checkBotHeaders): an automation-related substring in the lower-cased declared
identity sets the score directly to 0.95 and triggers an immediate report. -/
def checkBotHeadersResolve (userAgent : String) (st : BotDetector) : BotDetector :=
  if botUASubstrs.any fun s => jsIncludes (lowerStr userAgent) s then
    report { st with confidenceScore := 0.95 }
  else st

/-- Immediate part of detectAutomationLibraries: the documented automation
flag on the execution context (navigator.webdriver) sets the score directly
to 0.95.  No report is triggered here. -/
def detectAutomationLibrariesNow (webdriver : Bool) (st : BotDetector) : BotDetector :=
  if webdriver then { st with confidenceScore := 0.95 } else st

/-- Delayed checkForAutomation closure of detectAutomationLibraries: a known
automation-framework global sets the score directly to 0.95 (no report), and
exact equality of outer and inner viewport dimensions then adds 0.1 with no
clamp and no report. -/
def checkForAutomation (cdp pwMeta : Bool) (outerHeight innerHeight outerWidth innerWidth : ℚ)
    (st : BotDetector) : BotDetector :=
  let st := if cdp || pwMeta then { st with confidenceScore := 0.95 } else st
  if outerHeight = innerHeight ∧ outerWidth = innerWidth then
    { st with confidenceScore := st.confidenceScore + 0.1 }
  else st

/-- Call count recorded for one endpoint path in the usage map. -/
def getHits (hits : List (String × ℕ)) (k : String) : ℕ :=
  ((hits.find? fun p => p.1 == k).map (·.2)).getD 0

/-- Increment of one endpoint path's counter in the insertion-ordered map. -/
def incrHits (hits : List (String × ℕ)) (k : String) : List (String × ℕ) :=
  if hits.any fun p => p.1 == k then
    hits.map fun p => if p.1 == k then (p.1, p.2 + 1) else p
  else hits ++ [(k, 1)]

/-- The wrapped window.fetch observation (hookIntoFetch): a string url that
starts with the privileged prefix and does not contain the substring
behaviorMetrics has its query-less path counted; the underlying call always
proceeds unchanged. -/
def hookIntoFetchCall (url : String) (st : BotDetector) : BotDetector :=
  if jsStartsWith url "/bot/" ∧ ¬ jsIncludes url "behaviorMetrics" then
    { st with botEndpointHits := incrHits st.botEndpointHits (splitQuery url) }
  else st

/-- NaN-guarded getter (getConfidenceScore).  Over exact rationals the stored
score is never NaN (the only NaN source, the fused extractor value, is
guarded inside runAnalysis before it reaches the stored score), so the guard
is the identity. -/
def getConfidenceScore (st : BotDetector) : ℚ := st.confidenceScore

/-- Bot likelihood decision (isLikelyBot). -/
def isLikelyBot (st : BotDetector) : Bool :=
  decide (CONFIG.BOT_THRESHOLD < st.confidenceScore)

/-- Weighted fusion of the four extractor scores; none models a NaN fused
value (NaN propagates through the weighted sum in JavaScript). -/
def fusedScore (sq : ℚ → ℚ) (dom : ℚ → ℚ → Option Rect) (st : BotDetector) : Option ℚ := do
  let mouseEntropyScore ← calculateMouseEntropy sq st.mouseMovements
  let typingPatternScore ← calculateTypingPatterns st.keyPressTimings
  let navigationScore := calculateNavigationPatterns sq dom st.clickEvents st.scrollEvents
  let formFillingScore := calculateFormFillingPatterns st.formInteractions
  pure (mouseEntropyScore * CONFIG.MOUSE_ENTROPY + typingPatternScore * CONFIG.TYPING_PATTERN +
    navigationScore * CONFIG.NAVIGATION_PATTERN + formFillingScore * CONFIG.FORM_FILLING)

/-- Periodic analysis cycle (runAnalysis), non-faulting path: skipped when a
cycle is already in progress or when there are fewer pointer samples than the
minimum; otherwise it fuses the four signals, guards a NaN fused value to
0.5, smooths with the 0.7 to 0.3 exponential moving average (the second NaN
guard, on the smoothed value, is vacuous over exact rationals) and reports.
The in-progress flag is set on entry and cleared in the finally clause, so
it is unchanged across the whole cycle. -/
def runAnalysis (sq : ℚ → ℚ) (dom : ℚ → ℚ → Option Rect) (st : BotDetector) : BotDetector :=
  if st.isAnalyzing then st
  else if st.mouseMovements.length < CONFIG.MIN_MOUSE_MOVEMENTS then st
  else
    let validNewScore := (fusedScore sq dom st).getD 0.5
    report { st with confidenceScore := st.confidenceScore * 0.7 + validNewScore * 0.3 }

/-- Periodic analysis cycle with an injected fault: when fault is true an
exception is raised inside the try block (necessarily before the report,
since reportToServer catches its own errors internally); the catch handler
overwrites the score with the neutral 0.5, the finally clause clears the
in-progress flag, and the wrapper returns normally, so no exception
propagates to the caller. -/
def runAnalysisWithFault (sq : ℚ → ℚ) (dom : ℚ → ℚ → Option Rect) (fault : Bool)
    (st : BotDetector) : BotDetector :=
  if st.isAnalyzing then st
  else if fault then { st with confidenceScore := 0.5, isAnalyzing := false }
  else runAnalysis sq dom st

/-- Total number of privileged-endpoint calls recorded in the usage map. -/
def totalHits (hits : List (String × ℕ)) : ℕ := (hits.map (·.2)).sum

/-- Tier computation factored over its three inputs, exactly the arithmetic
of getIntelligenceLevel: L2 is the High tier, L1 Moderate, L0 Low. -/
def levelFromParts (confidence navScore : ℚ) (endpointCount : ℕ) : String :=
  let endpointScore := min 1 ((endpointCount : ℚ) / 3)
  let combined := confidence * 0.5 + navScore * 0.3 + endpointScore * 0.2
  if 0.7 ≤ combined then "L2"
  else if 0.4 ≤ combined then "L1"
  else "L0"

/-- Tier classifier (getIntelligenceLevel). -/
def getIntelligenceLevel (sq : ℚ → ℚ) (dom : ℚ → ℚ → Option Rect) (st : BotDetector) : String :=
  levelFromParts (getConfidenceScore st)
    (calculateNavigationPatterns sq dom st.clickEvents st.scrollEvents)
    (totalHits st.botEndpointHits)

/-- Lifecycle start: attach the listeners, arm the periodic analysis, and run
the immediate automation-library probe (detectAutomationLibraries reads the
webdriver flag synchronously; its delayed closure is a separate step). -/
def start (webdriver : Bool) (st : BotDetector) : BotDetector :=
  detectAutomationLibrariesNow webdriver { st with listening := true, timerArmed := true }

/-- Lifecycle stop: detach the listeners, cancel the pending analysis timer
and clear the five sample buffers.  The endpoint usage map, the score and
the report log are not cleared. -/
def stop (st : BotDetector) : BotDetector :=
  { st with
    listening := false
    timerArmed := false
    mouseMovements := []
    keyPressTimings := []
    clickEvents := []
    scrollEvents := []
    formInteractions := [] }

/-- One externally driven step of a detector instance: a raw document event,
the resolution of the constructor's header probe, the delayed automation
probe, a scheduled analysis tick, an observed outbound fetch, or a lifecycle
call. -/
inductive Op where
  | mouseMove (now x y : ℚ)
  | keyDown (now : ℚ) (shift ctrl alt meta : Bool)
  | click (now x y : ℚ) (tag : String) (rect : Option Rect)
  | scroll (now scrollY : ℚ)
  | formInput (now : ℚ) (tag field : String)
  | headersResolve (userAgent : String)
  | autoDelayed (cdp pwMeta : Bool) (outerHeight innerHeight outerWidth innerWidth : ℚ)
  | analyze (dom : ℚ → ℚ → Option Rect)
  | fetchCall (url : String)
  | startOp (webdriver : Bool)
  | stopOp

/-- Effect of one step on the detector state.  Raw document events reach the
handlers only while the listeners are attached; the periodic analysis runs
only while its timer is armed; the header-probe resolution, the delayed
automation probe and the fetch hook are indifferent to the lifecycle. -/
def applyOp (sq : ℚ → ℚ) (st : BotDetector) : Op → BotDetector
  | .mouseMove now x y => if st.listening then handleMouseMove now x y st else st
  | .keyDown now s c a m => if st.listening then handleKeyDown now s c a m st else st
  | .click now x y tag rect => if st.listening then handleClick sq now x y tag rect st else st
  | .scroll now sy => if st.listening then handleScroll now sy st else st
  | .formInput now tag field =>
    if st.listening then handleFormInteraction now tag field st else st
  | .headersResolve ua => checkBotHeadersResolve ua st
  | .autoDelayed cdp pw oh ih ow iw => checkForAutomation cdp pw oh ih ow iw st
  | .analyze dom => if st.timerArmed then runAnalysis sq dom st else st
  | .fetchCall url => hookIntoFetchCall url st
  | .startOp wd => start wd st
  | .stopOp => stop st

/-- Run a sequence of steps from a given state. -/
def runOps (sq : ℚ → ℚ) (st : BotDetector) (ops : List Op) : BotDetector :=
  ops.foldl (applyOp sq) st

/-- Raw document events: those delivered through the attached listeners. -/
def isRawEvent : Op → Bool
  | .mouseMove _ _ _ => true
  | .keyDown _ _ _ _ _ => true
  | .click _ _ _ _ _ => true
  | .scroll _ _ => true
  | .formInput _ _ _ => true
  | _ => false

/-- Steps on which the unclamped viewport-equality increment fires. -/
def isDimsBump : Op → Bool
  | .autoDelayed _ _ oh ih ow iw => decide (oh = ih ∧ ow = iw)
  | _ => false

/-- Number of unclamped viewport-equality increments in a step sequence. -/
def dimsBumpCount (ops : List Op) : ℕ := ops.countP isDimsBump

@[simp] lemma adjDiffs_nil : adjDiffs [] = [] := by simp [adjDiffs]

@[simp] lemma adjDiffs_single (a : ℚ) : adjDiffs [a] = [] := by simp [adjDiffs]

@[simp] lemma adjDiffs_cons (a b : ℚ) (t : List ℚ) :
    adjDiffs (a :: b :: t) = (b - a) :: adjDiffs (b :: t) := by simp [adjDiffs]

@[simp] lemma adjAbsDiffs_nil : adjAbsDiffs [] = 0 := by simp [adjAbsDiffs]

@[simp] lemma adjAbsDiffs_single (a : ℚ) : adjAbsDiffs [a] = 0 := by simp [adjAbsDiffs]

@[simp] lemma adjAbsDiffs_cons (a b : ℚ) (t : List ℚ) :
    adjAbsDiffs (a :: b :: t) = |b - a| + adjAbsDiffs (b :: t) := by simp [adjAbsDiffs]

@[simp] lemma triples_nil {α : Type} : triples (α := α) [] = [] := by simp [triples]

@[simp] lemma triples_single {α : Type} (a : α) : triples [a] = [] := by simp [triples]

@[simp] lemma triples_pair {α : Type} (a b : α) : triples [a, b] = [] := by simp [triples]

@[simp] lemma triples_cons {α : Type} (a b c : α) (t : List α) :
    triples (a :: b :: c :: t) = (a, b, c) :: triples (b :: c :: t) := by simp [triples]

lemma triples_length {α : Type} : ∀ l : List α, (triples l).length = l.length - 2
  | [] => by simp
  | [_] => by simp
  | [_, _] => by simp
  | a :: b :: c :: t => by
    rw [triples_cons, List.length_cons, triples_length (b :: c :: t)]
    simp

lemma adjAbsDiffs_nonneg : ∀ l : List ℚ, 0 ≤ adjAbsDiffs l
  | [] => by simp
  | [_] => by simp
  | _ :: b :: t => by
    rw [adjAbsDiffs_cons]
    exact add_nonneg (abs_nonneg _) (adjAbsDiffs_nonneg (b :: t))

lemma two_mul_sum_le (a : ℚ) : ∀ l : List ℚ,
    2 * a * l.sum ≤ (l.length : ℚ) * a ^ 2 + (l.map fun x => x * x).sum
  | [] => by simp
  | x :: t => by
    have h1 := two_mul_le_add_sq a x
    have h2 := two_mul_sum_le a t
    simp only [List.sum_cons, List.map_cons, List.length_cons]
    push_cast
    nlinarith [h1, h2]

/-- Cauchy-Schwarz with the all-ones vector: the square of a list sum is at
most the length times the sum of squares.  This is what makes the typing
extractor's variance nonnegative. -/
lemma sq_sum_le_length_mul_sum_sq : ∀ l : List ℚ,
    l.sum ^ 2 ≤ (l.length : ℚ) * (l.map fun x => x * x).sum
  | [] => by simp
  | a :: t => by
    have h1 := sq_sum_le_length_mul_sum_sq t
    have h2 := two_mul_sum_le a t
    simp only [List.sum_cons, List.map_cons, List.length_cons]
    push_cast
    nlinarith [h1, h2]

lemma calculateMouseEntropy_bounds (sq : ℚ → ℚ) (l : List MousePt) (v : ℚ)
    (h : calculateMouseEntropy sq l = some v) : 0 ≤ v ∧ v ≤ 1 := by
  by_cases hlen : l.length < CONFIG.MIN_MOUSE_MOVEMENTS
  · rw [calculateMouseEntropy, if_pos hlen, Option.some_inj] at h
    subst h
    norm_num
  · rw [calculateMouseEntropy, if_neg hlen] at h
    simp only [jsDiv] at h
    by_cases hden : ((l.length : ℚ) - 2) = 0
    · rw [if_pos hden] at h
      simp at h
    · rw [if_neg hden, Option.map_some', Option.some_inj] at h
      subst h
      have hlen2 : CONFIG.MIN_MOUSE_MOVEMENTS ≤ l.length := le_of_not_lt hlen
      have hd : (0 : ℚ) < (l.length : ℚ) - 2 := by
        rcases lt_or_eq_of_le (by exact_mod_cast hlen2 : (2 : ℚ) ≤ (l.length : ℚ)) with h2 | h2
        · linarith
        · exact absurd (by linarith : ((l.length : ℚ) - 2) = 0) hden
      have hsv : 0 ≤ adjAbsDiffs ((triples l).map fun t => speedOf sq t.2.1 t.2.2) :=
        adjAbsDiffs_nonneg _
      have hsvs : 0 ≤ adjAbsDiffs ((triples l).map fun t => speedOf sq t.2.1 t.2.2) /
          ((l.length : ℚ) - 2) := div_nonneg hsv (le_of_lt hd)
      have hmin0 : (0 : ℚ) ≤ min 1 (adjAbsDiffs ((triples l).map fun t => speedOf sq t.2.1 t.2.2) /
          ((l.length : ℚ) - 2) * 10) := le_min (by norm_num) (by positivity)
      have hmin1 : min 1 (adjAbsDiffs ((triples l).map fun t => speedOf sq t.2.1 t.2.2) /
          ((l.length : ℚ) - 2) * 10) ≤ 1 := min_le_left _ _
      have hcnt : ((triples l).countP fun t => decide (crossOf t.1 t.2.1 t.2.2 < 10)) ≤
          l.length - 2 := by
        rw [← triples_length l]
        exact List.countP_le_length _
      have hcntq : ((((triples l).countP fun t => decide (crossOf t.1 t.2.1 t.2.2 < 10) : ℕ)) : ℚ)
          ≤ (l.length : ℚ) - 2 := by
        calc ((((triples l).countP fun t => decide (crossOf t.1 t.2.1 t.2.2 < 10) : ℕ)) : ℚ)
            ≤ ((l.length - 2 : ℕ) : ℚ) := by exact_mod_cast hcnt
          _ = (l.length : ℚ) - 2 := by
              have h2 : 2 ≤ l.length := hlen2
              push_cast [Nat.cast_sub h2]
              ring
      have hratio : (0 : ℚ) ≤ (if 3 < l.length then
            (((triples l).countP fun t => decide (crossOf t.1 t.2.1 t.2.2 < 10) : ℕ) : ℚ) /
              ((l.length : ℚ) - 2)
          else 0) ∧ (if 3 < l.length then
            (((triples l).countP fun t => decide (crossOf t.1 t.2.1 t.2.2 < 10) : ℕ) : ℚ) /
              ((l.length : ℚ) - 2)
          else 0) ≤ 1 := by
        by_cases h3 : 3 < l.length
        · rw [if_pos h3]
          constructor
          · positivity
          · rw [div_le_one hd]
            exact hcntq
        · rw [if_neg h3]
          norm_num
      constructor
      · nlinarith [hratio.1, hratio.2, hmin0, hmin1]
      · nlinarith [hratio.1, hratio.2, hmin0, hmin1]

lemma calculateTypingPatterns_bounds (l : List KeyPt) (v : ℚ)
    (h : calculateTypingPatterns l = some v) : 0 ≤ v ∧ v ≤ 1 := by
  by_cases hlen : l.length < CONFIG.MIN_KEYPRESS_SAMPLES
  · rw [calculateTypingPatterns, if_pos hlen, Option.some_inj] at h
    subst h
    norm_num
  · rw [calculateTypingPatterns, if_neg hlen] at h
    simp only [jsDiv] at h
    set ivs := adjDiffs (l.map fun k => k.time) with hivs
    by_cases hden : ((ivs.length : ℚ) = 0)
    · rw [if_pos hden] at h
      simp at h
    · simp only [if_neg hden, Option.bind_eq_bind, Option.some_bind, Option.pure_def,
        Option.some_inj] at h
      subst h
      have hn : (0 : ℚ) < (ivs.length : ℚ) := by
        rcases Nat.eq_zero_or_pos ivs.length with h0 | h0
        · exact absurd (by exact_mod_cast h0) hden
        · exact_mod_cast h0
      have hcs := sq_sum_le_length_mul_sum_sq ivs
      have hvar : 0 ≤ (ivs.map fun i => i * i).sum / (ivs.length : ℚ) -
          ivs.sum / (ivs.length : ℚ) * (ivs.sum / (ivs.length : ℚ)) := by
        rw [div_mul_div_comm, sub_nonneg, div_le_div_iff₀ (by positivity) hn]
        nlinarith [hcs]
      have hmin0 : (0 : ℚ) ≤ min 1 (((ivs.map fun i => i * i).sum / (ivs.length : ℚ) -
          ivs.sum / (ivs.length : ℚ) * (ivs.sum / (ivs.length : ℚ))) / 10000) :=
        le_min (by norm_num) (by positivity)
      have hmin1 : min 1 (((ivs.map fun i => i * i).sum / (ivs.length : ℚ) -
          ivs.sum / (ivs.length : ℚ) * (ivs.sum / (ivs.length : ℚ))) / 10000) ≤ 1 :=
        min_le_left _ _
      constructor
      · linarith
      · linarith

lemma scrollRegularity_bounds (sq : ℚ → ℚ) (l : List ScrollPt) :
    0 ≤ scrollRegularity sq l ∧ scrollRegularity sq l ≤ 1 := by
  unfold scrollRegularity
  constructor
  · exact le_max_left _ _
  · exact max_le (by norm_num) (min_le_left _ _)

lemma centerClickRatio_bounds (sq : ℚ → ℚ) (dom : ℚ → ℚ → Option Rect) (l : List ClickPt) :
    0 ≤ centerClickRatio sq dom l ∧ centerClickRatio sq dom l ≤ 1 := by
  unfold centerClickRatio
  constructor
  · positivity
  · apply div_le_one_of_le₀
    · exact_mod_cast List.countP_le_length _
    · positivity

lemma calculateNavigationPatterns_bounds (sq : ℚ → ℚ) (dom : ℚ → ℚ → Option Rect)
    (clicks : List ClickPt) (scrolls : List ScrollPt) :
    0 ≤ calculateNavigationPatterns sq dom clicks scrolls ∧
      calculateNavigationPatterns sq dom clicks scrolls ≤ 1 := by
  unfold calculateNavigationPatterns
  have hs := scrollRegularity_bounds sq scrolls
  have hc := centerClickRatio_bounds sq dom clicks
  split
  · norm_num
  · split <;> split <;> constructor <;> linarith [hs.1, hs.2, hc.1, hc.2]

lemma calculateFormFillingPatterns_bounds (l : List FormPt) :
    0 ≤ calculateFormFillingPatterns l ∧ calculateFormFillingPatterns l ≤ 1 := by
  unfold calculateFormFillingPatterns
  split
  · norm_num
  · dsimp only
    split_ifs <;> norm_num

lemma fusedScore_bounds (sq : ℚ → ℚ) (dom : ℚ → ℚ → Option Rect) (st : BotDetector) (v : ℚ)
    (h : fusedScore sq dom st = some v) : 0 ≤ v ∧ v ≤ 1 := by
  unfold fusedScore at h
  rcases hm : calculateMouseEntropy sq st.mouseMovements with _ | m
  · rw [hm] at h
    simp at h
  · rcases ht : calculateTypingPatterns st.keyPressTimings with _ | t
    · rw [hm, ht] at h
      simp at h
    · rw [hm, ht] at h
      simp only [Option.bind_eq_bind, Option.some_bind, Option.pure_def, Option.some_inj] at h
      have hmb := calculateMouseEntropy_bounds sq st.mouseMovements m hm
      have htb := calculateTypingPatterns_bounds st.keyPressTimings t ht
      have hnb := calculateNavigationPatterns_bounds sq dom st.clickEvents st.scrollEvents
      have hfb := calculateFormFillingPatterns_bounds st.formInteractions
      subst h
      unfold CONFIG.MOUSE_ENTROPY CONFIG.TYPING_PATTERN CONFIG.NAVIGATION_PATTERN
        CONFIG.FORM_FILLING
      constructor
      · nlinarith [hmb.1, htb.1, hnb.1, hfb.1]
      · nlinarith [hmb.2, htb.2, hnb.2, hfb.2]

/-- The value actually blended into the running score by one analysis cycle
is always in the unit interval: it is either a fused value, which the
extractor bounds put in the unit interval, or the 0.5 that replaces NaN. -/
lemma validNewScore_bounds (sq : ℚ → ℚ) (dom : ℚ → ℚ → Option Rect) (st : BotDetector) :
    0 ≤ (fusedScore sq dom st).getD 0.5 ∧ (fusedScore sq dom st).getD 0.5 ≤ 1 := by
  rcases hf : fusedScore sq dom st with _ | v
  · norm_num
  · simpa using fusedScore_bounds sq dom st v hf

lemma score_nonneg_and_le {s c : ℚ} (h0 : 0 ≤ s) (hc : 0 ≤ c) :
    0 ≤ min 0.95 (s + c) ∧ min 0.95 (s + c) ≤ max s 0.95 :=
  ⟨le_min (by norm_num) (by linarith), le_max_of_le_right (min_le_left _ _)⟩

lemma handleMouseMove_score (now x y : ℚ) (st : BotDetector) (h0 : 0 ≤ st.confidenceScore) :
    0 ≤ (handleMouseMove now x y st).confidenceScore ∧
      (handleMouseMove now x y st).confidenceScore ≤ max st.confidenceScore 0.95 := by
  simp only [handleMouseMove, bumpScore]
  split_ifs
  · exact score_nonneg_and_le h0 (by norm_num)
  · exact ⟨h0, le_max_left _ _⟩
  · exact ⟨h0, le_max_left _ _⟩

lemma detectMechanicalTyping_score (st : BotDetector) (h0 : 0 ≤ st.confidenceScore) :
    0 ≤ (detectMechanicalTyping st).confidenceScore ∧
      (detectMechanicalTyping st).confidenceScore ≤ max st.confidenceScore 0.95 := by
  simp only [detectMechanicalTyping, bumpScore]
  split_ifs
  · exact ⟨h0, le_max_left _ _⟩
  · exact score_nonneg_and_le h0 (by norm_num)
  · exact ⟨h0, le_max_left _ _⟩

lemma handleKeyDown_score (now : ℚ) (sh c a m : Bool) (st : BotDetector)
    (h0 : 0 ≤ st.confidenceScore) :
    0 ≤ (handleKeyDown now sh c a m st).confidenceScore ∧
      (handleKeyDown now sh c a m st).confidenceScore ≤ max st.confidenceScore 0.95 := by
  simp only [handleKeyDown]
  split_ifs
  · exact detectMechanicalTyping_score _ h0
  · exact ⟨h0, le_max_left _ _⟩
  · exact ⟨h0, le_max_left _ _⟩

lemma handleClick_score (sq : ℚ → ℚ) (now x y : ℚ) (tag : String) (rect : Option Rect)
    (st : BotDetector) (h0 : 0 ≤ st.confidenceScore) :
    0 ≤ (handleClick sq now x y tag rect st).confidenceScore ∧
      (handleClick sq now x y tag rect st).confidenceScore ≤ max st.confidenceScore 0.95 := by
  cases rect with
  | none => exact ⟨h0, le_max_left _ _⟩
  | some r =>
    simp only [handleClick, report, bumpScore]
    split_ifs
    · exact score_nonneg_and_le h0 (by norm_num)
    · exact ⟨h0, le_max_left _ _⟩

lemma detectMechanicalScrolling_score (st : BotDetector) (h0 : 0 ≤ st.confidenceScore) :
    0 ≤ (detectMechanicalScrolling st).confidenceScore ∧
      (detectMechanicalScrolling st).confidenceScore ≤ max st.confidenceScore 0.95 := by
  simp only [detectMechanicalScrolling, bumpScore]
  split_ifs
  · exact ⟨h0, le_max_left _ _⟩
  · exact score_nonneg_and_le h0 (by norm_num)
  · exact ⟨h0, le_max_left _ _⟩

lemma handleScroll_score (now sy : ℚ) (st : BotDetector) (h0 : 0 ≤ st.confidenceScore) :
    0 ≤ (handleScroll now sy st).confidenceScore ∧
      (handleScroll now sy st).confidenceScore ≤ max st.confidenceScore 0.95 := by
  simp only [handleScroll]
  split_ifs
  · exact detectMechanicalScrolling_score _ h0
  · exact ⟨h0, le_max_left _ _⟩

lemma handleFormInteraction_score (now : ℚ) (tag field : String) (st : BotDetector)
    (h0 : 0 ≤ st.confidenceScore) :
    0 ≤ (handleFormInteraction now tag field st).confidenceScore ∧
      (handleFormInteraction now tag field st).confidenceScore ≤ max st.confidenceScore 0.95 := by
  simp only [handleFormInteraction, report, bumpScore]
  split_ifs
  · split
    · split_ifs
      · exact score_nonneg_and_le h0 (by norm_num)
      · exact ⟨h0, le_max_left _ _⟩
    · exact ⟨h0, le_max_left _ _⟩
  · exact ⟨h0, le_max_left _ _⟩
  · exact ⟨h0, le_max_left _ _⟩

lemma runAnalysis_score (sq : ℚ → ℚ) (dom : ℚ → ℚ → Option Rect) (st : BotDetector)
    (h0 : 0 ≤ st.confidenceScore) :
    0 ≤ (runAnalysis sq dom st).confidenceScore ∧
      (runAnalysis sq dom st).confidenceScore ≤ max st.confidenceScore 1 := by
  simp only [runAnalysis, report]
  split_ifs
  · exact ⟨h0, le_max_left _ _⟩
  · exact ⟨h0, le_max_left _ _⟩
  · have hv := validNewScore_bounds sq dom st
    constructor
    · nlinarith [hv.1]
    · rcases le_or_lt st.confidenceScore 1 with h1 | h1
      · apply le_max_of_le_right
        nlinarith [hv.2]
      · apply le_max_of_le_left
        nlinarith [hv.2]

/-- One step with no viewport-equality increment keeps the score nonnegative
and under any bound that is at least 1. -/
lemma applyOp_score_nondims (sq : ℚ → ℚ) (op : Op) (st : BotDetector) (B : ℚ) (hB : 1 ≤ B)
    (hop : isDimsBump op = false) (h0 : 0 ≤ st.confidenceScore)
    (h1 : st.confidenceScore ≤ B) :
    0 ≤ (applyOp sq st op).confidenceScore ∧ (applyOp sq st op).confidenceScore ≤ B := by
  have h95 : (0.95 : ℚ) ≤ B := by linarith
  cases op with
  | mouseMove now x y =>
    simp only [applyOp]
    split_ifs
    · have h := handleMouseMove_score now x y st h0
      exact ⟨h.1, le_trans h.2 (max_le h1 h95)⟩
    · exact ⟨h0, h1⟩
  | keyDown now sh c a m =>
    simp only [applyOp]
    split_ifs
    · have h := handleKeyDown_score now sh c a m st h0
      exact ⟨h.1, le_trans h.2 (max_le h1 h95)⟩
    · exact ⟨h0, h1⟩
  | click now x y tag rect =>
    simp only [applyOp]
    split_ifs
    · have h := handleClick_score sq now x y tag rect st h0
      exact ⟨h.1, le_trans h.2 (max_le h1 h95)⟩
    · exact ⟨h0, h1⟩
  | scroll now sy =>
    simp only [applyOp]
    split_ifs
    · have h := handleScroll_score now sy st h0
      exact ⟨h.1, le_trans h.2 (max_le h1 h95)⟩
    · exact ⟨h0, h1⟩
  | formInput now tag field =>
    simp only [applyOp]
    split_ifs
    · have h := handleFormInteraction_score now tag field st h0
      exact ⟨h.1, le_trans h.2 (max_le h1 h95)⟩
    · exact ⟨h0, h1⟩
  | headersResolve ua =>
    simp only [applyOp, checkBotHeadersResolve, report]
    split_ifs
    · exact ⟨by norm_num, h95⟩
    · exact ⟨h0, h1⟩
  | autoDelayed cdp pw oh ih ow iw =>
    have hd : ¬(oh = ih ∧ ow = iw) := by simpa [isDimsBump] using hop
    simp only [applyOp, checkForAutomation, if_neg hd]
    split_ifs
    · exact ⟨by norm_num, h95⟩
    · exact ⟨h0, h1⟩
  | analyze dom =>
    simp only [applyOp]
    split_ifs
    · have h := runAnalysis_score sq dom st h0
      exact ⟨h.1, le_trans h.2 (max_le h1 hB)⟩
    · exact ⟨h0, h1⟩
  | fetchCall url =>
    simp only [applyOp, hookIntoFetchCall]
    split_ifs
    · exact ⟨h0, h1⟩
    · exact ⟨h0, h1⟩
  | startOp wd =>
    simp only [applyOp, start, detectAutomationLibrariesNow]
    split_ifs
    · exact ⟨by norm_num, h95⟩
    · exact ⟨h0, h1⟩
  | stopOp =>
    simp only [applyOp, stop]
    exact ⟨h0, h1⟩

/-- A step carrying the viewport-equality increment raises the bound by
exactly the unclamped 0.1. -/
lemma applyOp_score_dims (sq : ℚ → ℚ) (op : Op) (st : BotDetector) (B : ℚ) (hB : 1 ≤ B)
    (hop : isDimsBump op = true) (h0 : 0 ≤ st.confidenceScore)
    (h1 : st.confidenceScore ≤ B) :
    0 ≤ (applyOp sq st op).confidenceScore ∧ (applyOp sq st op).confidenceScore ≤ B + 0.1 := by
  have h95 : (0.95 : ℚ) ≤ B := by linarith
  cases op with
  | autoDelayed cdp pw oh ih ow iw =>
    have hd : oh = ih ∧ ow = iw := by simpa [isDimsBump] using hop
    simp only [applyOp, checkForAutomation, if_pos hd]
    split_ifs
    · exact ⟨by norm_num, by linarith⟩
    · exact ⟨by linarith, by linarith⟩
  | mouseMove now x y => simp [isDimsBump] at hop
  | keyDown now sh c a m => simp [isDimsBump] at hop
  | click now x y tag rect => simp [isDimsBump] at hop
  | scroll now sy => simp [isDimsBump] at hop
  | formInput now tag field => simp [isDimsBump] at hop
  | headersResolve ua => simp [isDimsBump] at hop
  | analyze dom => simp [isDimsBump] at hop
  | fetchCall url => simp [isDimsBump] at hop
  | startOp wd => simp [isDimsBump] at hop
  | stopOp => simp [isDimsBump] at hop

lemma runOps_score_inv (sq : ℚ → ℚ) : ∀ (ops : List Op) (st : BotDetector) (B : ℚ),
    1 ≤ B → 0 ≤ st.confidenceScore → st.confidenceScore ≤ B →
    0 ≤ (runOps sq st ops).confidenceScore ∧
      (runOps sq st ops).confidenceScore ≤ B + (dimsBumpCount ops : ℚ) * 0.1
  | [], st, B, _, h0, h1 => by
    simpa [runOps, dimsBumpCount] using ⟨h0, h1⟩
  | op :: rest, st, B, hB, h0, h1 => by
    rw [runOps, List.foldl_cons]
    by_cases hop : isDimsBump op = true
    · have hstep := applyOp_score_dims sq op st B hB hop h0 h1
      have hrec := runOps_score_inv sq rest (applyOp sq st op) (B + 0.1) (by linarith)
        hstep.1 hstep.2
      have hc : dimsBumpCount (op :: rest) = dimsBumpCount rest + 1 := by
        simp [dimsBumpCount, List.countP_cons, hop]
      rw [show runOps sq (applyOp sq st op) rest = (rest.foldl (applyOp sq) (applyOp sq st op))
          from rfl] at hrec
      refine ⟨hrec.1, le_trans hrec.2 ?_⟩
      rw [hc]
      push_cast
      linarith
    · have hopf : isDimsBump op = false := by simpa using hop
      have hstep := applyOp_score_nondims sq op st B hB hopf h0 h1
      have hrec := runOps_score_inv sq rest (applyOp sq st op) B hB hstep.1 hstep.2
      have hc : dimsBumpCount (op :: rest) = dimsBumpCount rest := by
        simp [dimsBumpCount, List.countP_cons, hopf]
      rw [show runOps sq (applyOp sq st op) rest = (rest.foldl (applyOp sq) (applyOp sq st op))
          from rfl] at hrec
      rw [hc]
      exact hrec

lemma pushTrim_length {α : Type} (l : List α) (a : α) (cap : ℕ) (h : l.length ≤ cap) :
    (pushTrim l a cap).length ≤ cap := by
  unfold pushTrim
  dsimp only
  split_ifs with hlt
  · simp only [List.length_drop, List.length_append, List.length_cons, List.length_nil]
    omega
  · simp only [List.length_append, List.length_cons, List.length_nil] at hlt ⊢
    omega

/-- Strict FIFO eviction: appending to a full buffer drops exactly the oldest
sample and keeps the rest in order. -/
lemma pushTrim_full {α : Type} (l : List α) (a : α) (cap : ℕ) (hcap : 0 < cap)
    (h : l.length = cap) : pushTrim l a cap = l.drop 1 ++ [a] := by
  unfold pushTrim
  dsimp only
  rw [if_pos (by simp [h])]
  rw [List.drop_append_of_le_length (by omega)]

/-- All five sample buffers are within their configured capacities. -/
def BufBounds (st : BotDetector) : Prop :=
  st.mouseMovements.length ≤ CONFIG.MAX_SAMPLES ∧
  st.keyPressTimings.length ≤ CONFIG.MAX_SAMPLES ∧
  st.clickEvents.length ≤ CONFIG.MAX_SAMPLES / 4 ∧
  st.scrollEvents.length ≤ CONFIG.MAX_SAMPLES / 4 ∧
  st.formInteractions.length ≤ CONFIG.MAX_SAMPLES / 4

lemma applyOp_bufBounds (sq : ℚ → ℚ) (op : Op) (st : BotDetector) (h : BufBounds st) :
    BufBounds (applyOp sq st op) := by
  obtain ⟨hm, hk, hc, hs, hf⟩ := h
  cases op with
  | mouseMove now x y =>
    simp only [applyOp, handleMouseMove, bumpScore]
    split_ifs <;> exact ⟨by first | exact hm | exact pushTrim_length _ _ _ hm,
      hk, hc, hs, hf⟩
  | keyDown now sh c a m =>
    simp only [applyOp, handleKeyDown, detectMechanicalTyping, bumpScore]
    split_ifs <;> exact ⟨hm, by first | exact hk | exact pushTrim_length _ _ _ hk,
      hc, hs, hf⟩
  | click now x y tag rect =>
    cases rect with
    | none =>
      simp only [applyOp, handleClick]
      split_ifs <;> exact ⟨hm, hk, by first | exact hc | exact pushTrim_length _ _ _ hc, hs, hf⟩
    | some r =>
      simp only [applyOp, handleClick, report, bumpScore]
      split_ifs <;> exact ⟨hm, hk, by first | exact hc | exact pushTrim_length _ _ _ hc, hs, hf⟩
  | scroll now sy =>
    simp only [applyOp, handleScroll, detectMechanicalScrolling, bumpScore]
    split_ifs <;> exact ⟨hm, hk, hc, by first | exact hs | exact pushTrim_length _ _ _ hs, hf⟩
  | formInput now tag field =>
    simp only [applyOp, handleFormInteraction, report, bumpScore]
    split_ifs
    · split
      · split_ifs <;>
          exact ⟨hm, hk, hc, hs, by first | exact hf | exact pushTrim_length _ _ _ hf⟩
      · exact ⟨hm, hk, hc, hs, pushTrim_length _ _ _ hf⟩
    · exact ⟨hm, hk, hc, hs, pushTrim_length _ _ _ hf⟩
    · exact ⟨hm, hk, hc, hs, hf⟩
    · exact ⟨hm, hk, hc, hs, hf⟩
  | headersResolve ua =>
    simp only [applyOp, checkBotHeadersResolve, report]
    split_ifs <;> exact ⟨hm, hk, hc, hs, hf⟩
  | autoDelayed cdp pw oh ih ow iw =>
    simp only [applyOp, checkForAutomation]
    split_ifs <;> exact ⟨hm, hk, hc, hs, hf⟩
  | analyze dom =>
    simp only [applyOp, runAnalysis, report]
    split_ifs <;> exact ⟨hm, hk, hc, hs, hf⟩
  | fetchCall url =>
    simp only [applyOp, hookIntoFetchCall]
    split_ifs <;> exact ⟨hm, hk, hc, hs, hf⟩
  | startOp wd =>
    simp only [applyOp, start, detectAutomationLibrariesNow]
    split_ifs <;> exact ⟨hm, hk, hc, hs, hf⟩
  | stopOp =>
    exact ⟨by simp [applyOp, stop], by simp [applyOp, stop], by simp [applyOp, stop],
      by simp [applyOp, stop], by simp [applyOp, stop]⟩

lemma runOps_bufBounds (sq : ℚ → ℚ) : ∀ (ops : List Op) (st : BotDetector),
    BufBounds st → BufBounds (runOps sq st ops)
  | [], _, h => h
  | op :: rest, st, h =>
    runOps_bufBounds sq rest (applyOp sq st op) (applyOp_bufBounds sq op st h)

/-- A raw document event delivered while the listeners are detached leaves
the state entirely unchanged. -/
lemma applyOp_raw_not_listening (sq : ℚ → ℚ) (op : Op) (st : BotDetector)
    (hL : st.listening = false) (hop : isRawEvent op = true) : applyOp sq st op = st := by
  cases op <;> simp_all [applyOp, isRawEvent]

lemma runOps_raw_not_listening (sq : ℚ → ℚ) : ∀ (ops : List Op) (st : BotDetector),
    st.listening = false → ops.all isRawEvent = true → runOps sq st ops = st
  | [], st, _, _ => rfl
  | op :: rest, st, hL, hall => by
    rw [List.all_cons, Bool.and_eq_true] at hall
    have h1 : isRawEvent op = true := hall.1
    have h2 : rest.all isRawEvent = true := hall.2
    rw [runOps, List.foldl_cons, applyOp_raw_not_listening sq op st hL h1]
    exact runOps_raw_not_listening sq rest st hL h2

lemma getHits_cons_ne {p : String × ℕ} {t : List (String × ℕ)} {k : String}
    (hp : (p.1 == k) = false) : getHits (p :: t) k = getHits t k := by
  simp [getHits, List.find?_cons, hp]

lemma getHits_cons_eq {p : String × ℕ} {t : List (String × ℕ)} {k : String}
    (hp : (p.1 == k) = true) : getHits (p :: t) k = p.2 := by
  simp [getHits, List.find?_cons, hp]

lemma getHits_map_bump_self : ∀ (t : List (String × ℕ)) (k : String),
    t.any (fun p => p.1 == k) = true →
    getHits (t.map fun p => if (p.1 == k) = true then (p.1, p.2 + 1) else p) k =
      getHits t k + 1
  | [], k => by simp
  | p :: t, k => fun hany => by
    by_cases hp : (p.1 == k) = true
    · rw [List.map_cons, if_pos hp, getHits_cons_eq hp, getHits_cons_eq (p := (p.1, p.2 + 1)) hp]
    · have hp' : (p.1 == k) = false := by simpa using hp
      have hany' : t.any (fun q => q.1 == k) = true := by
        simpa [List.any_cons, hp'] using hany
      rw [List.map_cons, if_neg (by simp [hp']), getHits_cons_ne hp', getHits_cons_ne hp']
      exact getHits_map_bump_self t k hany'

lemma getHits_map_bump_ne : ∀ (t : List (String × ℕ)) (kp k : String), kp ≠ k →
    getHits (t.map fun p => if (p.1 == kp) = true then (p.1, p.2 + 1) else p) k = getHits t k
  | [], _, _, _ => rfl
  | p :: t, kp, k, hne => by
    by_cases hp : (p.1 == kp) = true
    · have hpk : (p.1 == k) = false := by
        have : p.1 = kp := by simpa using hp
        simp [this, hne]
      rw [List.map_cons, if_pos hp, getHits_cons_ne (p := (p.1, p.2 + 1)) hpk,
        getHits_cons_ne hpk]
      exact getHits_map_bump_ne t kp k hne
    · rw [List.map_cons, if_neg hp]
      by_cases hpk : (p.1 == k) = true
      · rw [getHits_cons_eq hpk, getHits_cons_eq hpk]
      · have hpk' : (p.1 == k) = false := by simpa using hpk
        rw [getHits_cons_ne hpk', getHits_cons_ne hpk']
        exact getHits_map_bump_ne t kp k hne

lemma find?_eq_none_of_any_false {t : List (String × ℕ)} {k : String}
    (h : t.any (fun p => p.1 == k) = false) : t.find? (fun p => p.1 == k) = none := by
  rw [List.find?_eq_none]
  intro x hx hxk
  have hcontra : t.any (fun p => p.1 == k) = true := List.any_eq_true.mpr ⟨x, hx, hxk⟩
  rw [h] at hcontra
  exact Bool.false_ne_true hcontra

lemma getHits_incrHits_self (hits : List (String × ℕ)) (k : String) :
    getHits (incrHits hits k) k = getHits hits k + 1 := by
  rw [incrHits]
  split_ifs with hany
  · exact getHits_map_bump_self hits k hany
  · have hnone := find?_eq_none_of_any_false (Bool.eq_false_iff.mpr hany)
    rw [getHits, List.find?_append, hnone]
    rw [getHits, hnone]
    simp

lemma getHits_incrHits_ne (hits : List (String × ℕ)) (kp k : String) (h : kp ≠ k) :
    getHits (incrHits hits kp) k = getHits hits k := by
  rw [incrHits]
  split_ifs with hany
  · exact getHits_map_bump_ne hits kp k h
  · rw [getHits, List.find?_append, getHits]
    rcases hf : hits.find? (fun p => p.1 == k) with _ | q
    · simp [hf, List.find?_cons, h]
    · simp [hf]

lemma getHits_incrHits_le (hits : List (String × ℕ)) (kp k : String) :
    getHits hits k ≤ getHits (incrHits hits kp) k := by
  by_cases h : kp = k
  · subst h
    rw [getHits_incrHits_self]
    omega
  · rw [getHits_incrHits_ne hits kp k h]

/-- Every endpoint counter is monotonically non-decreasing across every step,
including stop. -/
lemma applyOp_hits_mono (sq : ℚ → ℚ) (op : Op) (st : BotDetector) (k : String) :
    getHits st.botEndpointHits k ≤ getHits (applyOp sq st op).botEndpointHits k := by
  cases op with
  | mouseMove now x y =>
    simp only [applyOp, handleMouseMove, bumpScore]
    split_ifs <;> exact le_refl _
  | keyDown now sh c a m =>
    simp only [applyOp, handleKeyDown, detectMechanicalTyping, bumpScore]
    split_ifs <;> exact le_refl _
  | click now x y tag rect =>
    cases rect with
    | none =>
      simp only [applyOp, handleClick]
      split_ifs <;> exact le_refl _
    | some r =>
      simp only [applyOp, handleClick, report, bumpScore]
      split_ifs <;> exact le_refl _
  | scroll now sy =>
    simp only [applyOp, handleScroll, detectMechanicalScrolling, bumpScore]
    split_ifs <;> exact le_refl _
  | formInput now tag field =>
    simp only [applyOp, handleFormInteraction, report, bumpScore]
    split_ifs
    · split
      · split_ifs <;> exact le_refl _
      · exact le_refl _
    · exact le_refl _
    · exact le_refl _
    · exact le_refl _
  | headersResolve ua =>
    simp only [applyOp, checkBotHeadersResolve, report]
    split_ifs <;> exact le_refl _
  | autoDelayed cdp pw oh ih ow iw =>
    simp only [applyOp, checkForAutomation]
    split_ifs <;> exact le_refl _
  | analyze dom =>
    simp only [applyOp, runAnalysis, report]
    split_ifs <;> exact le_refl _
  | fetchCall url =>
    simp only [applyOp, hookIntoFetchCall]
    split_ifs
    · exact getHits_incrHits_le _ _ _
    · exact le_refl _
  | startOp wd =>
    simp only [applyOp, start, detectAutomationLibrariesNow]
    split_ifs <;> exact le_refl _
  | stopOp => exact le_refl _

lemma runOps_hits_mono (sq : ℚ → ℚ) : ∀ (ops : List Op) (st : BotDetector) (k : String),
    getHits st.botEndpointHits k ≤ getHits (runOps sq st ops).botEndpointHits k
  | [], _, _ => le_refl _
  | op :: rest, st, k =>
    le_trans (applyOp_hits_mono sq op st k) (runOps_hits_mono sq rest (applyOp sq st op) k)

/-
Claim theorems.  Each claim of the specification gets one theorem below,
together with a counterexample where the claim fails on the code and a
closed witness where the theorem carries hypotheses.
-/

/-- Example pointer samples: two samples (the NaN case of the motion
extractor) and three collinear samples. -/
def exM0 : MousePt := ⟨0, 0, 0⟩

def exM1 : MousePt := ⟨1, 0, 50⟩

def exM2 : MousePt := ⟨3, 0, 50⟩

def exM3 : MousePt := ⟨6, 0, 100⟩

def exK0 : KeyPt := ⟨0, false, false, false, false⟩

def exK1 : KeyPt := ⟨100, false, false, false, false⟩

/-- Example scroll buffer: three perfectly evenly spaced scroll samples, so
the scroll-interval variance is 0 and the regularity sub-signal is exactly 1. -/
def exScrolls : List ScrollPt := [⟨0, 0⟩, ⟨10, 100⟩, ⟨20, 200⟩]

/-- Example click buffer: two clicks. -/
def exClicks : List ClickPt := [⟨0, 0, "BUTTON", 10⟩, ⟨1, 1, "BUTTON", 20⟩]

/-- Example DOM in which elementFromPoint finds no element anywhere, so no
click counts as a center click and the center-click ratio is exactly 0. -/
def exDom : ℚ → ℚ → Option Rect := fun _ _ => none

/-- C1, amended.  For every step sequence the confidence score is nonnegative
and bounded by 1 plus 0.1 per unclamped viewport-equality increment; in
particular it stays in the unit interval for every sequence in which that
increment never fires.  (The score is a rational in this model and can never
be NaN: the one NaN source, the fused extractor value, is replaced by 0.5
inside the analysis cycle, see C2.)  The original claim, that the score
always stays in the unit interval, is refuted by claim_C1_counterexample. -/
theorem claim_C1_score_bounds (sq : ℚ → ℚ) (ops : List Op) :
    0 ≤ (runOps sq initState ops).confidenceScore ∧
    (runOps sq initState ops).confidenceScore ≤ 1 + (dimsBumpCount ops : ℚ) * 0.1 ∧
    (dimsBumpCount ops = 0 → (runOps sq initState ops).confidenceScore ≤ 1) := by
  have h := runOps_score_inv sq ops initState 1 (le_refl 1)
    (by norm_num [initState]) (by norm_num [initState])
  refine ⟨h.1, h.2, fun hz => ?_⟩
  have := h.2
  rw [hz] at this
  simpa using this

/-- C1 counterexample: starting the detector under a webdriver flag sets the
score to 0.95, and the delayed probe then finds equal outer and inner
viewport dimensions and adds 0.1 without any clamp, leaving the score at
1.05, strictly above 1. -/
theorem claim_C1_counterexample :
    (runOps ratSqrt initState [.startOp true, .autoDelayed false false 5 5 7 7]).confidenceScore
      = 21 / 20 ∧
    1 < (runOps ratSqrt initState
      [.startOp true, .autoDelayed false false 5 5 7 7]).confidenceScore := by
  constructor <;>
    norm_num [runOps, applyOp, initState, start, detectAutomationLibrariesNow,
      checkForAutomation, List.foldl]

/-- C1 witness: the conditional part of claim_C1_score_bounds evaluated on the
empty step sequence. -/
theorem claim_C1_witness :
    (runOps ratSqrt initState []).confidenceScore ≤ 1 :=
  (claim_C1_score_bounds ratSqrt []).2.2 (by decide)

/-- C2, confirmed.  An analysis cycle that is not suppressed by the
re-entrancy guard leaves the state untouched when there are fewer than 2
pointer samples; otherwise it fuses the four extractor scores with the
weights 0.45, 0.15, 0.25, 0.15, replaces a NaN fused value by 0.5, sets the
score to 0.7 times the previous score plus 0.3 times the fused value, and
appends exactly one report carrying the new score. -/
theorem claim_C2_analysis_cycle (sq : ℚ → ℚ) (dom : ℚ → ℚ → Option Rect)
    (st : BotDetector) (hA : st.isAnalyzing = false) :
    (st.mouseMovements.length < 2 → runAnalysis sq dom st = st) ∧
    (2 ≤ st.mouseMovements.length →
      (runAnalysis sq dom st).confidenceScore =
        0.7 * st.confidenceScore + 0.3 *
          (((calculateMouseEntropy sq st.mouseMovements).bind fun m =>
            (calculateTypingPatterns st.keyPressTimings).bind fun t =>
            some (m * 0.45 + t * 0.15 +
              calculateNavigationPatterns sq dom st.clickEvents st.scrollEvents * 0.25 +
              calculateFormFillingPatterns st.formInteractions * 0.15)).getD 0.5) ∧
      (runAnalysis sq dom st).reports = st.reports ++
        [0.7 * st.confidenceScore + 0.3 *
          (((calculateMouseEntropy sq st.mouseMovements).bind fun m =>
            (calculateTypingPatterns st.keyPressTimings).bind fun t =>
            some (m * 0.45 + t * 0.15 +
              calculateNavigationPatterns sq dom st.clickEvents st.scrollEvents * 0.25 +
              calculateFormFillingPatterns st.formInteractions * 0.15)).getD 0.5)]) := by
  have hfe : fusedScore sq dom st =
      ((calculateMouseEntropy sq st.mouseMovements).bind fun m =>
        (calculateTypingPatterns st.keyPressTimings).bind fun t =>
        some (m * 0.45 + t * 0.15 +
          calculateNavigationPatterns sq dom st.clickEvents st.scrollEvents * 0.25 +
          calculateFormFillingPatterns st.formInteractions * 0.15)) := rfl
  have hmin : CONFIG.MIN_MOUSE_MOVEMENTS = 2 := rfl
  constructor
  · intro h
    rw [runAnalysis, if_neg (by simp [hA]), if_pos (by rw [hmin]; exact h)]
  · intro h
    rw [runAnalysis, if_neg (by simp [hA]), if_neg (by rw [hmin]; omega)]
    rw [← hfe]
    constructor
    · simp only [report]
      ring
    · simp only [report, List.cons_append, List.nil_append]
      congr 1
      congr 1
      ring

/-- C2 witness: claim_C2_analysis_cycle applied to a state with exactly two
recorded pointer samples. -/
theorem claim_C2_witness :
    (runAnalysis ratSqrt exDom { initState with mouseMovements := [exM0, exM1] }).reports =
      initState.reports ++
        [0.7 * (initState.confidenceScore : ℚ) + 0.3 *
          (((calculateMouseEntropy ratSqrt [exM0, exM1]).bind fun m =>
            (calculateTypingPatterns initState.keyPressTimings).bind fun t =>
            some (m * 0.45 + t * 0.15 +
              calculateNavigationPatterns ratSqrt exDom initState.clickEvents
                initState.scrollEvents * 0.25 +
              calculateFormFillingPatterns initState.formInteractions * 0.15)).getD 0.5)] :=
  ((claim_C2_analysis_cycle ratSqrt exDom { initState with mouseMovements := [exM0, exM1] }
    rfl).2 (by decide)).2

/-- C3, amended.  Below the minimum sample count each extractor returns
exactly the neutral 0.5, and whenever an extractor returns a number at all
that number is in the unit interval (the navigation and form-fill extractors
always do); however at exactly the minimum count - exactly 2 pointer samples
for motion, exactly 1 key sample for typing - those two extractors return
NaN (modelled as none, the 0/0 of the source), not a number in the unit
interval; the NaN is replaced by 0.5 only later, in the fusion step.  The
original claim, that all four extractors always return a value in the unit
interval, is refuted by claim_C3_counterexample. -/
theorem claim_C3_extractor_ranges :
    (∀ sq : ℚ → ℚ, calculateMouseEntropy sq [] = some 0.5) ∧
    (∀ (sq : ℚ → ℚ) (p : MousePt), calculateMouseEntropy sq [p] = some 0.5) ∧
    calculateTypingPatterns [] = some 0.5 ∧
    (∀ (sq : ℚ → ℚ) (p q : MousePt), calculateMouseEntropy sq [p, q] = none) ∧
    (∀ k : KeyPt, calculateTypingPatterns [k] = none) ∧
    (∀ (sq : ℚ → ℚ) (l : List MousePt) (v : ℚ),
      calculateMouseEntropy sq l = some v → 0 ≤ v ∧ v ≤ 1) ∧
    (∀ (l : List KeyPt) (v : ℚ), calculateTypingPatterns l = some v → 0 ≤ v ∧ v ≤ 1) ∧
    (∀ (sq : ℚ → ℚ) (dom : ℚ → ℚ → Option Rect) (clicks : List ClickPt)
      (scrolls : List ScrollPt),
      0 ≤ calculateNavigationPatterns sq dom clicks scrolls ∧
        calculateNavigationPatterns sq dom clicks scrolls ≤ 1) ∧
    (∀ forms : List FormPt,
      0 ≤ calculateFormFillingPatterns forms ∧ calculateFormFillingPatterns forms ≤ 1) := by
  refine ⟨?_, ?_, ?_, ?_, ?_, ?_, ?_, ?_, ?_⟩
  · intro sq
    norm_num [calculateMouseEntropy, CONFIG.MIN_MOUSE_MOVEMENTS]
  · intro sq p
    norm_num [calculateMouseEntropy, CONFIG.MIN_MOUSE_MOVEMENTS]
  · norm_num [calculateTypingPatterns, CONFIG.MIN_KEYPRESS_SAMPLES]
  · intro sq p q
    norm_num [calculateMouseEntropy, CONFIG.MIN_MOUSE_MOVEMENTS, jsDiv]
  · intro k
    norm_num [calculateTypingPatterns, CONFIG.MIN_KEYPRESS_SAMPLES, jsDiv]
  · exact calculateMouseEntropy_bounds
  · exact calculateTypingPatterns_bounds
  · exact calculateNavigationPatterns_bounds
  · exact calculateFormFillingPatterns_bounds

/-- C3 counterexample: at exactly the minimum sample counts (2 pointer
samples, 1 key sample) the motion and typing extractors divide zero by zero
and return NaN (none), which is not a value in the unit interval. -/
theorem claim_C3_counterexample :
    calculateMouseEntropy ratSqrt [exM0, exM1] = none ∧
    calculateTypingPatterns [exK0] = none := by
  constructor
  · norm_num [calculateMouseEntropy, CONFIG.MIN_MOUSE_MOVEMENTS, jsDiv, exM0, exM1]
  · norm_num [calculateTypingPatterns, CONFIG.MIN_KEYPRESS_SAMPLES, jsDiv, exK0]

/-- C3 witness: the bound conjuncts of claim_C3_extractor_ranges applied to a
three-sample pointer buffer whose motion score evaluates to 0.4 and a
two-sample key buffer whose typing score evaluates to 1. -/
theorem claim_C3_witness :
    (0 ≤ (2 / 5 : ℚ) ∧ (2 / 5 : ℚ) ≤ 1) ∧ (0 ≤ (1 : ℚ) ∧ (1 : ℚ) ≤ 1) := by
  have hm : calculateMouseEntropy ratSqrt [exM0, exM2, exM3] = some (2 / 5) := by
    norm_num [calculateMouseEntropy, CONFIG.MIN_MOUSE_MOVEMENTS, jsDiv, exM0, exM2, exM3,
      speedOf, crossOf, List.countP, List.countP.go]
  have ht : calculateTypingPatterns [exK0, exK1] = some 1 := by
    norm_num [calculateTypingPatterns, CONFIG.MIN_KEYPRESS_SAMPLES, jsDiv, exK0, exK1]
  exact ⟨claim_C3_extractor_ranges.2.2.2.2.2.1 ratSqrt [exM0, exM2, exM3] (2 / 5) hm,
    claim_C3_extractor_ranges.2.2.2.2.2.2.1 [exK0, exK1] 1 ht⟩

/-- C4, confirmed.  The tier classifier is the stated pure function of the
guarded confidence score, the navigation signal over the current buffers and
the total privileged-endpoint call count: combined = 0.5 conf + 0.3 nav +
0.2 min(1, calls / 3), returning the high tier L2 for combined at least 0.7,
the moderate tier L1 for combined at least 0.4, the low tier L0 otherwise,
with both boundaries inclusive toward the higher tier; it returns L0 at
(0.2, 0.1, 0) and L2 at (0.9, 0.9, 5). -/
theorem claim_C4_tier :
    (∀ (sq : ℚ → ℚ) (dom : ℚ → ℚ → Option Rect) (st : BotDetector),
      getIntelligenceLevel sq dom st = levelFromParts (getConfidenceScore st)
        (calculateNavigationPatterns sq dom st.clickEvents st.scrollEvents)
        (totalHits st.botEndpointHits)) ∧
    (∀ (conf nav : ℚ) (n : ℕ),
      levelFromParts conf nav n =
        if 0.7 ≤ 0.5 * conf + 0.3 * nav + 0.2 * min 1 ((n : ℚ) / 3) then "L2"
        else if 0.4 ≤ 0.5 * conf + 0.3 * nav + 0.2 * min 1 ((n : ℚ) / 3) then "L1"
        else "L0") ∧
    levelFromParts 0.2 0.1 0 = "L0" ∧
    levelFromParts 0.9 0.9 5 = "L2" ∧
    (∀ (conf nav : ℚ) (n : ℕ),
      0.5 * conf + 0.3 * nav + 0.2 * min 1 ((n : ℚ) / 3) = 0.7 →
      levelFromParts conf nav n = "L2") ∧
    (∀ (conf nav : ℚ) (n : ℕ),
      0.5 * conf + 0.3 * nav + 0.2 * min 1 ((n : ℚ) / 3) = 0.4 →
      levelFromParts conf nav n = "L1") := by
  have hcomb : ∀ (conf nav : ℚ) (n : ℕ),
      conf * 0.5 + nav * 0.3 + min 1 ((n : ℚ) / 3) * 0.2 =
        0.5 * conf + 0.3 * nav + 0.2 * min 1 ((n : ℚ) / 3) := by
    intro conf nav n
    ring
  refine ⟨fun _ _ _ => rfl, ?_, by norm_num [levelFromParts], by norm_num [levelFromParts],
    ?_, ?_⟩
  · intro conf nav n
    simp only [levelFromParts]
    rw [hcomb]
  · intro conf nav n h
    simp only [levelFromParts]
    rw [hcomb, h]
    norm_num
  · intro conf nav n h
    simp only [levelFromParts]
    rw [hcomb, h]
    norm_num

/-- C4 witness: the boundary conjuncts of claim_C4_tier at concrete inputs
with combined exactly 0.7 (conf 1, nav 0, 3 calls) and exactly 0.4
(conf 0.8, nav 0, 0 calls). -/
theorem claim_C4_witness :
    levelFromParts 1 0 3 = "L2" ∧ levelFromParts 0.8 0 0 = "L1" :=
  ⟨claim_C4_tier.2.2.2.2.1 1 0 3 (by norm_num),
   claim_C4_tier.2.2.2.2.2 0.8 0 0 (by norm_num)⟩

/-- C5, confirmed.  From a fresh instance, after any step sequence the
pointer and key buffers hold at most 200 samples and the click, scroll and
form buffers at most 50; and the trim discipline used by every handler is
strict FIFO: appending to a full buffer drops exactly the oldest sample. -/
theorem claim_C5_buffer_caps (sq : ℚ → ℚ) (ops : List Op) :
    (runOps sq initState ops).mouseMovements.length ≤ 200 ∧
    (runOps sq initState ops).keyPressTimings.length ≤ 200 ∧
    (runOps sq initState ops).clickEvents.length ≤ 50 ∧
    (runOps sq initState ops).scrollEvents.length ≤ 50 ∧
    (runOps sq initState ops).formInteractions.length ≤ 50 ∧
    (∀ (l : List MousePt) (a : MousePt), l.length = 200 →
      pushTrim l a CONFIG.MAX_SAMPLES = l.drop 1 ++ [a]) ∧
    (∀ (l : List ClickPt) (a : ClickPt), l.length = 50 →
      pushTrim l a (CONFIG.MAX_SAMPLES / 4) = l.drop 1 ++ [a]) := by
  have hb := runOps_bufBounds sq ops initState
    ⟨by simp [initState], by simp [initState], by simp [initState], by simp [initState],
      by simp [initState]⟩
  obtain ⟨hm, hk, hc, hs, hf⟩ := hb
  refine ⟨hm, hk, hc, hs, hf, ?_, ?_⟩
  · intro l a h
    exact pushTrim_full l a CONFIG.MAX_SAMPLES (by norm_num [CONFIG.MAX_SAMPLES]) h
  · intro l a h
    exact pushTrim_full l a (CONFIG.MAX_SAMPLES / 4) (by norm_num [CONFIG.MAX_SAMPLES]) h

/-- C5 witness: the FIFO conjunct of claim_C5_buffer_caps on a full pointer
buffer of 200 identical samples and on a full click buffer of 50. -/
theorem claim_C5_witness :
    pushTrim (List.replicate 200 exM0) exM1 CONFIG.MAX_SAMPLES =
      (List.replicate 200 exM0).drop 1 ++ [exM1] ∧
    pushTrim (List.replicate 50 (⟨0, 0, "A", 0⟩ : ClickPt)) ⟨1, 1, "A", 1⟩
        (CONFIG.MAX_SAMPLES / 4) =
      (List.replicate 50 (⟨0, 0, "A", 0⟩ : ClickPt)).drop 1 ++ [⟨1, 1, "A", 1⟩] :=
  ⟨(claim_C5_buffer_caps ratSqrt []).2.2.2.2.2.1 (List.replicate 200 exM0) exM1
     (by rw [List.length_replicate]),
   (claim_C5_buffer_caps ratSqrt []).2.2.2.2.2.2 (List.replicate 50 ⟨0, 0, "A", 0⟩)
     ⟨1, 1, "A", 1⟩ (by rw [List.length_replicate])⟩

/-- C6, amended.  Of the three strong environment-probe matches, all set the
confidence score directly to 0.95, but only the identity-substring probe
(checkBotHeaders) triggers an immediate report; the automation-flag probe
(navigator.webdriver) and the known-global probe set the score without
reporting.  The original claim, that every strong match triggers an
immediate report, is refuted by claim_C6_counterexample. -/
theorem claim_C6_probes (st : BotDetector) (ua : String) (cdp pw : Bool)
    (oh ih ow iw : ℚ) :
    ((botUASubstrs.any fun sub => jsIncludes (lowerStr ua) sub) = true →
      (checkBotHeadersResolve ua st).confidenceScore = 0.95 ∧
      (checkBotHeadersResolve ua st).reports = st.reports ++ [0.95]) ∧
    ((detectAutomationLibrariesNow true st).confidenceScore = 0.95 ∧
      (detectAutomationLibrariesNow true st).reports = st.reports) ∧
    ((cdp || pw) = true → ¬(oh = ih ∧ ow = iw) →
      (checkForAutomation cdp pw oh ih ow iw st).confidenceScore = 0.95) ∧
    (checkForAutomation cdp pw oh ih ow iw st).reports = st.reports := by
  refine ⟨fun h => ?_, ?_, fun hg hd => ?_, ?_⟩
  · rw [checkBotHeadersResolve, if_pos h]
    exact ⟨rfl, rfl⟩
  · exact ⟨rfl, rfl⟩
  · rw [checkForAutomation]
    simp only [hg, if_true, if_neg hd]
  · rw [checkForAutomation]
    split_ifs <;> rfl

/-- C6 counterexample: the automation-flag probe on a fresh instance sets the
score to 0.95 yet sends no report at all, so this strong match does not
trigger an immediate report. -/
theorem claim_C6_counterexample :
    (detectAutomationLibrariesNow true initState).confidenceScore = 0.95 ∧
    (detectAutomationLibrariesNow true initState).reports = [] := by
  constructor <;> rfl

/-- C6 witness: the reporting conjunct of claim_C6_probes for an identity
string containing the substring playwright, and the no-report global-probe
conjunct with the cdp global present and unequal dimensions. -/
theorem claim_C6_witness :
    ((checkBotHeadersResolve "Mozilla/5.0 Playwright/1.49" initState).confidenceScore = 0.95 ∧
      (checkBotHeadersResolve "Mozilla/5.0 Playwright/1.49" initState).reports =
        initState.reports ++ [0.95]) ∧
    (checkForAutomation true false 5 6 7 8 initState).confidenceScore = 0.95 :=
  ⟨(claim_C6_probes initState "Mozilla/5.0 Playwright/1.49" true false 5 6 7 8).1 (by decide),
   (claim_C6_probes initState "Mozilla/5.0 Playwright/1.49" true false 5 6 7 8).2.2.1
     (by decide) (by norm_num)⟩

/-- C7, amended.  When both navigation sub-signals have enough samples (at
least 3 scrolls and at least 2 clicks), the navigation signal is the average
of the center-click ratio with the average of the neutral 0.5 and the scroll
regularity - the two branches fold sequentially, each averaging the running
value with one sub-signal - not the plain average of the two sub-signals;
with only one sub-signal available, the signal is the average of the neutral
0.5 with that sub-signal.  The original claim, that with both sub-signals the
result is their average, is refuted by claim_C7_counterexample. -/
theorem claim_C7_navigation_blend (sq : ℚ → ℚ) (dom : ℚ → ℚ → Option Rect)
    (clicks : List ClickPt) (scrolls : List ScrollPt) :
    (3 ≤ scrolls.length → 2 ≤ clicks.length →
      calculateNavigationPatterns sq dom clicks scrolls =
        ((0.5 + scrollRegularity sq scrolls) / 2 + centerClickRatio sq dom clicks) / 2) ∧
    (3 ≤ scrolls.length → clicks.length < 2 →
      calculateNavigationPatterns sq dom clicks scrolls =
        (0.5 + scrollRegularity sq scrolls) / 2) ∧
    (scrolls.length < 3 → 2 ≤ clicks.length →
      calculateNavigationPatterns sq dom clicks scrolls =
        (0.5 + centerClickRatio sq dom clicks) / 2) := by
  refine ⟨fun hs hc => ?_, fun hs hc => ?_, fun hs hc => ?_⟩
  · rw [calculateNavigationPatterns, if_neg (by omega)]
    dsimp only
    rw [if_pos hs, if_pos hc]
  · rw [calculateNavigationPatterns, if_neg (by omega)]
    dsimp only
    rw [if_pos hs, if_neg (by omega)]
  · rw [calculateNavigationPatterns, if_neg (by omega)]
    dsimp only
    rw [if_pos hc, if_neg (by omega : ¬3 ≤ scrolls.length)]

/-- C7 counterexample: with three perfectly even scrolls the scroll
regularity is exactly 1, and with two clicks on a page where elementFromPoint
finds nothing the center-click ratio is exactly 0; the navigation signal is
then 3/8, not the 1/2 that the average of the two sub-signals would give. -/
theorem claim_C7_counterexample :
    scrollRegularity ratSqrt exScrolls = 1 ∧
    centerClickRatio ratSqrt exDom exClicks = 0 ∧
    calculateNavigationPatterns ratSqrt exDom exClicks exScrolls = 3 / 8 ∧
    (3 / 8 : ℚ) ≠ (1 + 0) / 2 := by
  refine ⟨?_, ?_, ?_, by norm_num⟩
  · norm_num [scrollRegularity, exScrolls, ratSqrt]
  · norm_num [centerClickRatio, isCenterClick, exDom, exClicks, List.countP, List.countP.go]
  · norm_num [calculateNavigationPatterns, scrollRegularity, centerClickRatio, isCenterClick,
      exScrolls, exClicks, exDom, ratSqrt, List.countP, List.countP.go]

/-- C7 witness: the both-sub-signals conjunct of claim_C7_navigation_blend on
the example buffers. -/
theorem claim_C7_witness :
    calculateNavigationPatterns ratSqrt exDom exClicks exScrolls =
      ((0.5 + scrollRegularity ratSqrt exScrolls) / 2 +
        centerClickRatio ratSqrt exDom exClicks) / 2 :=
  (claim_C7_navigation_blend ratSqrt exDom exClicks exScrolls).1 (by decide) (by decide)

/-- C8, confirmed.  After stop (listeners detached, buffers cleared, timer
cancelled), delivering any sequence of raw document events changes nothing:
the state stays exactly the stopped state, every buffer stays empty, and the
report log never grows. -/
theorem claim_C8_stop (sq : ℚ → ℚ) (st : BotDetector) (ops : List Op)
    (h : ops.all isRawEvent = true) :
    runOps sq (stop st) ops = stop st ∧
    (runOps sq (stop st) ops).mouseMovements = [] ∧
    (runOps sq (stop st) ops).keyPressTimings = [] ∧
    (runOps sq (stop st) ops).clickEvents = [] ∧
    (runOps sq (stop st) ops).scrollEvents = [] ∧
    (runOps sq (stop st) ops).formInteractions = [] ∧
    (runOps sq (stop st) ops).reports = st.reports := by
  have hfix := runOps_raw_not_listening sq ops (stop st) rfl h
  rw [hfix]
  exact ⟨rfl, rfl, rfl, rfl, rfl, rfl, rfl⟩

/-- C8 witness: claim_C8_stop on a fresh instance followed by one event of
each raw class. -/
theorem claim_C8_witness :
    (runOps ratSqrt (stop initState)
      [.mouseMove 100 1 2, .keyDown 200 false false false false,
       .click 300 4 5 "BUTTON" none, .scroll 400 6,
       .formInput 500 "INPUT" "origin"]).reports = initState.reports :=
  (claim_C8_stop ratSqrt initState
    [.mouseMove 100 1 2, .keyDown 200 false false false false,
     .click 300 4 5 "BUTTON" none, .scroll 400 6,
     .formInput 500 "INPUT" "origin"] (by decide)).2.2.2.2.2.2

/-- C9, amended.  The fetch hook counts an observed outbound call under its
query-less path exactly when the url starts with the privileged prefix
/bot/ and does not contain the substring behaviorMetrics anywhere (the
source's containment test is coarser than excluding only the reporting
endpoint itself, see claim_C9_counterexample); every counter is monotonically
non-decreasing under every step, and stop leaves the usage map untouched. -/
theorem claim_C9_endpoint_map (sq : ℚ → ℚ) (st : BotDetector) (url : String)
    (k : String) (op : Op) :
    ((jsStartsWith url "/bot/" = true ∧ jsIncludes url "behaviorMetrics" = false) →
      getHits (hookIntoFetchCall url st).botEndpointHits (splitQuery url) =
        getHits st.botEndpointHits (splitQuery url) + 1) ∧
    ((jsStartsWith url "/bot/" = false ∨ jsIncludes url "behaviorMetrics" = true) →
      (hookIntoFetchCall url st).botEndpointHits = st.botEndpointHits) ∧
    getHits st.botEndpointHits k ≤ getHits (applyOp sq st op).botEndpointHits k ∧
    (stop st).botEndpointHits = st.botEndpointHits := by
  refine ⟨fun h => ?_, fun h => ?_, applyOp_hits_mono sq op st k, rfl⟩
  · rw [hookIntoFetchCall, if_pos ⟨h.1, by simp [h.2]⟩]
    exact getHits_incrHits_self _ _
  · rw [hookIntoFetchCall, if_neg]
    rintro ⟨ha, hb⟩
    rcases h with h | h
    · rw [h] at ha
      exact Bool.false_ne_true ha
    · exact hb h

/-- C9 counterexample: the url /bot/pricing?tag=behaviorMetrics starts with
the privileged prefix and its path /bot/pricing is not the reporting
endpoint, so under the claim its counter must be incremented; the code does
not count it, because the url merely contains the substring behaviorMetrics. -/
theorem claim_C9_counterexample :
    jsStartsWith "/bot/pricing?tag=behaviorMetrics" "/bot/" = true ∧
    splitQuery "/bot/pricing?tag=behaviorMetrics" ≠ "/bot/behaviorMetrics" ∧
    (hookIntoFetchCall "/bot/pricing?tag=behaviorMetrics" initState).botEndpointHits =
      initState.botEndpointHits := by
  refine ⟨by decide, by decide, ?_⟩
  rw [hookIntoFetchCall, if_neg]
  rintro ⟨-, hb⟩
  exact hb (by decide)

/-- C9 witness: the increment conjunct of claim_C9_endpoint_map for a
privileged call with a query string, on a fresh instance. -/
theorem claim_C9_witness :
    getHits (hookIntoFetchCall "/bot/graphql?query=1" initState).botEndpointHits
      (splitQuery "/bot/graphql?query=1") =
    getHits initState.botEndpointHits (splitQuery "/bot/graphql?query=1") + 1 :=
  (claim_C9_endpoint_map ratSqrt initState "/bot/graphql?query=1" "/bot/graphql"
    Op.stopOp).1 ⟨by decide, by decide⟩

/-- C10, confirmed.  If an exception is raised inside an analysis cycle that
actually runs, the catch handler sets the score to exactly the neutral 0.5
(discarding the pre-cycle score), no report is emitted, the buffers are
untouched, and the finally clause leaves the in-progress flag cleared; the
wrapper is a total function returning a state, so no exception reaches the
caller, and the non-faulting run is exactly runAnalysis. -/
theorem claim_C10_analysis_fault (sq : ℚ → ℚ) (dom : ℚ → ℚ → Option Rect)
    (st : BotDetector) (hA : st.isAnalyzing = false) :
    (runAnalysisWithFault sq dom true st).confidenceScore = 0.5 ∧
    (runAnalysisWithFault sq dom true st).isAnalyzing = false ∧
    (runAnalysisWithFault sq dom true st).reports = st.reports ∧
    (runAnalysisWithFault sq dom true st).mouseMovements = st.mouseMovements ∧
    runAnalysisWithFault sq dom false st = runAnalysis sq dom st := by
  have hbody : runAnalysisWithFault sq dom true st =
      { st with confidenceScore := 0.5, isAnalyzing := false } := by
    rw [runAnalysisWithFault, if_neg (by simp [hA]), if_pos rfl]
  have hok : runAnalysisWithFault sq dom false st = runAnalysis sq dom st := by
    rw [runAnalysisWithFault, if_neg (by simp [hA]), if_neg (by simp)]
  rw [hbody]
  exact ⟨rfl, rfl, rfl, rfl, hok⟩

/-- C10 witness: claim_C10_analysis_fault on a fresh instance whose pre-cycle
score was first forced to 0.95 by the webdriver probe, showing the faulting
cycle discards it for the neutral 0.5. -/
theorem claim_C10_witness :
    (runAnalysisWithFault ratSqrt exDom true
      (detectAutomationLibrariesNow true initState)).confidenceScore = 0.5 :=
  (claim_C10_analysis_fault ratSqrt exDom (detectAutomationLibrariesNow true initState)
    rfl).1

end BotShop
